import Mathlib

/-!
Provider load check (`dockerfiles/ci/verify_load_fips_modules.c`).

A shallow embedding of the C program `main` of `verify_load_fips_modules.c`.
The program talks to three things outside itself: the OpenSSL provider library
(`OSSL_PROVIDER_load`, `OSSL_PROVIDER_unload`), the standard output (`printf`) and
the operating system (`exit`).  The library is not part of the repository, so it is
a parameter of the embedding: an arbitrary state machine with the two entry points.
Every call the program makes is appended to a chronological log, so that orderings of
calls can be stated.
-/

namespace VerifyLoadFipsModules

/-- A C pointer value (`OSSL_PROVIDER *`, `OSSL_LIB_CTX *`). -/
abbrev Ptr := Nat

/-- The null pointer. -/
def NULL : Ptr := 0

/-- One observable step of the process, in the order the process performs them. -/
inductive Event where
  /-- `OSSL_PROVIDER_load(ctx, name)` was called and returned `ret`. -/
  | load (ctx : Ptr) (name : String) (ret : Ptr)
  /-- `OSSL_PROVIDER_unload(prov)` was called. -/
  | unload (prov : Ptr)
  /-- `printf` wrote `text` to the standard output. -/
  | print (text : String)
  /-- `exit(status)` was called. -/
  | exit (status : Int)
  deriving DecidableEq, Repr

/-- The provider library the program is linked against, as a state machine over its
own hidden state `σ`.  `load` is `OSSL_PROVIDER_load` (a null result means failure,
whatever the cause), `unload` is `OSSL_PROVIDER_unload` (its `int` result is returned
with the new state). -/
structure Library (σ : Type) where
  load : σ → Ptr → String → Ptr × σ
  unload : σ → Ptr → Int × σ

/-- Everything outside the program's local variables: the library's state, what has
been written to the standard output so far, and the chronological log of events. -/
structure World (σ : Type) where
  lib : σ
  stdout : String
  log : List Event

/-- The world at process start: nothing printed, nothing called. -/
def World.start {σ : Type} (s : σ) : World σ :=
  World.mk s "" []

/-- The call `OSSL_PROVIDER_load(ctx, name)`: asks the library, logs the call with its
result and hands the result back. -/
def OSSL_PROVIDER_load {σ : Type} (L : Library σ) (ctx : Ptr) (name : String)
    (w : World σ) : Ptr × World σ :=
  let r := L.load w.lib ctx name
  (r.1, World.mk r.2 w.stdout (w.log ++ [Event.load ctx name r.1]))

/-- The call `OSSL_PROVIDER_unload(prov)`: the library is told, the call is logged. -/
def OSSL_PROVIDER_unload {σ : Type} (L : Library σ) (prov : Ptr)
    (w : World σ) : Int × World σ :=
  let r := L.unload w.lib prov
  (r.1, World.mk r.2 w.stdout (w.log ++ [Event.unload prov]))

/-- The call `printf(text)` for a format string without conversion specifications (both
format strings of the program are of that kind): the text goes to the standard output. -/
def printf {σ : Type} (text : String) (w : World σ) : World σ :=
  World.mk w.lib (w.stdout ++ text) (w.log ++ [Event.print text])

/-- The call `exit(status)`: the process ends here with that status; nothing of the
program runs afterwards. -/
def exit {σ : Type} (status : Int) (w : World σ) : Int × World σ :=
  (status, World.mk w.lib w.stdout (w.log ++ [Event.exit status]))

/-- The function `main` of `verify_load_fips_modules.c`, statement by statement.  The
result is the exit status of the process and the world it leaves behind. -/
def main {σ : Type} (L : Library σ) (w : World σ) : Int × World σ :=
  -- fips = OSSL_PROVIDER_load(NULL, "fips");
  let r1 := OSSL_PROVIDER_load L NULL "fips" w
  let fips := r1.1
  if fips = NULL then
    -- printf("Failed to load FIPS provider\n"); exit(1);
    exit 1 (printf "Failed to load FIPS provider\n" r1.2)
  else
    -- base = OSSL_PROVIDER_load(NULL, "base");
    let r2 := OSSL_PROVIDER_load L NULL "base" r1.2
    let base := r2.1
    if base = NULL then
      -- OSSL_PROVIDER_unload(fips); printf("Failed to load base provider\n"); exit(1);
      let u := OSSL_PROVIDER_unload L fips r2.2
      exit 1 (printf "Failed to load base provider\n" u.2)
    else
      /- Rest of application -/
      -- OSSL_PROVIDER_unload(base); OSSL_PROVIDER_unload(fips); exit(0);
      let u1 := OSSL_PROVIDER_unload L base r2.2
      let u2 := OSSL_PROVIDER_unload L fips u1.2
      exit 0 u2.2

/-- A whole run of the process from its start, with library `L` in state `s`. -/
def run {σ : Type} (L : Library σ) (s : σ) : Int × World σ :=
  main L (World.start s)

/-- The exit status of a run. -/
def status {σ : Type} (L : Library σ) (s : σ) : Int :=
  (run L s).1

/-- The standard output of a run. -/
def output {σ : Type} (L : Library σ) (s : σ) : String :=
  (run L s).2.stdout

/-- The event log of a run. -/
def trace {σ : Type} (L : Library σ) (s : σ) : List Event :=
  (run L s).2.log

/-- What the library answers to the first load request of a run, the one for "fips". -/
def fipsResult {σ : Type} (L : Library σ) (s : σ) : Ptr :=
  (L.load s NULL "fips").1

/-- What the library answers to a load request for "base" that follows the one for
"fips" (the library state is the one the first request left). -/
def baseResult {σ : Type} (L : Library σ) (s : σ) : Ptr :=
  (L.load (L.load s NULL "fips").2 NULL "base").1

/-! ## Projections of the log -/

/-- The library calls of a log: loads and unloads, in order. -/
def libraryCalls (log : List Event) : List Event :=
  log.filter fun e =>
    match e with
    | Event.load _ _ _ => true
    | Event.unload _ => true
    | _ => false

/-- The provider names requested by the load calls of a log, in order. -/
def loadNames (log : List Event) : List String :=
  log.filterMap fun e =>
    match e with
    | Event.load _ name _ => some name
    | _ => none

/-- The non-null handles returned by the load calls of a log, in order. -/
def acquired (log : List Event) : List Ptr :=
  log.filterMap fun e =>
    match e with
    | Event.load _ _ ret => if ret = NULL then none else some ret
    | _ => none

/-- The handles passed to the unload calls of a log, in order. -/
def unloads (log : List Event) : List Ptr :=
  log.filterMap fun e =>
    match e with
    | Event.unload prov => some prov
    | _ => none

/-- The newline character. -/
def newline : Char := Char.ofNat 10

/-- The number of newline characters of a text. -/
def newlines (text : String) : Nat :=
  text.toList.count newline

/-- A text is one line: it ends with a newline and has no other newline. -/
def IsOneLine (text : String) : Prop :=
  text.toList.getLast? = some newline ∧ newlines text = 1

/-- The text `part` occurs in `text` as a contiguous piece. -/
def Mentions (text part : String) : Prop :=
  part.toList <:+: text.toList

/-- The two local variables of `main` that hold a provider handle. -/
inductive Slot where
  | fips
  | base
  deriving DecidableEq, Repr

/-- The value of a local variable, given the values of `fips` and `base`. -/
def Slot.value (fips base : Ptr) : Slot → Ptr
  | Slot.fips => fips
  | Slot.base => base

/-! ## Example libraries -/

/-- An example library: the providers named in `installed` load, each load of one of
them returning a fresh handle (1, 2, ...); every other name yields a null result.
The state counts the handles given out. -/
def installedLibrary (installed : List String) : Library Nat :=
  Library.mk
    (fun n _ name => if name ∈ installed then (n + 1, n + 1) else (NULL, n))
    (fun n _ => (1, n))

/-- An example library without state that answers every load request with the same
pointer `p`. -/
def constantLibrary (p : Ptr) : Library Unit :=
  Library.mk (fun _ _ _ => (p, ())) (fun _ _ => (1, ()))

/-- Why a provider could not be loaded. -/
inductive Cause where
  | notFound
  | initFailed
  deriving DecidableEq, Repr

/-- An example library that knows why a load fails: `broken` lists the providers that
cannot be loaded with the cause; the cause is kept in the state (as the library's
error record) and the caller gets a null result either way. -/
def failingLibrary (broken : List (String × Cause)) : Library (Nat × Option Cause) :=
  Library.mk
    (fun s _ name =>
      match broken.lookup name with
      | some c => (NULL, (s.1, some c))
      | none => (s.1 + 1, (s.1 + 1, s.2)))
    (fun s _ => (1, s))

/-! ## The three paths of `main` -/

theorem run_fips_null {σ : Type} (L : Library σ) (s : σ) (h : fipsResult L s = NULL) :
    run L s =
      (1, World.mk (L.load s NULL "fips").2 "Failed to load FIPS provider\n"
        [Event.load NULL "fips" NULL, Event.print "Failed to load FIPS provider\n",
          Event.exit 1]) := by
  unfold fipsResult at h
  simp [run, main, OSSL_PROVIDER_load, printf, exit, World.start, h]

theorem run_base_null {σ : Type} (L : Library σ) (s : σ) (hf : fipsResult L s ≠ NULL)
    (hb : baseResult L s = NULL) :
    run L s =
      (1, World.mk
        (L.unload (L.load (L.load s NULL "fips").2 NULL "base").2 (fipsResult L s)).2
        "Failed to load base provider\n"
        [Event.load NULL "fips" (fipsResult L s), Event.load NULL "base" NULL,
          Event.unload (fipsResult L s), Event.print "Failed to load base provider\n",
          Event.exit 1]) := by
  unfold fipsResult at hf
  unfold baseResult at hb
  simp [run, main, OSSL_PROVIDER_load, OSSL_PROVIDER_unload, printf, exit, World.start,
    hf, hb, fipsResult]

theorem run_both {σ : Type} (L : Library σ) (s : σ) (hf : fipsResult L s ≠ NULL)
    (hb : baseResult L s ≠ NULL) :
    run L s =
      (0, World.mk
        (L.unload (L.unload (L.load (L.load s NULL "fips").2 NULL "base").2
          (baseResult L s)).2 (fipsResult L s)).2
        ""
        [Event.load NULL "fips" (fipsResult L s),
          Event.load NULL "base" (baseResult L s),
          Event.unload (baseResult L s), Event.unload (fipsResult L s),
          Event.exit 0]) := by
  unfold fipsResult at hf
  unfold baseResult at hb
  simp [run, main, OSSL_PROVIDER_load, OSSL_PROVIDER_unload, exit, World.start,
    hf, hb, fipsResult, baseResult]

/-- C1: for every library and every initial library state the run ends by calling
`exit`, its status is 0 exactly when both the "fips" load and the "base" load return a
non-null handle, it is 1 in every other case, and no other status occurs. -/
theorem C1_exit_status {σ : Type} (L : Library σ) (s : σ) :
    (status L s = 0 ↔ (fipsResult L s ≠ NULL ∧ baseResult L s ≠ NULL)) ∧
    (status L s = 1 ↔ ¬ (fipsResult L s ≠ NULL ∧ baseResult L s ≠ NULL)) ∧
    (status L s = 0 ∨ status L s = 1) ∧
    (trace L s).getLast? = some (Event.exit (status L s)) := by
  by_cases hf : fipsResult L s = NULL
  · simp [status, trace, run_fips_null L s hf, hf]
  · by_cases hb : baseResult L s = NULL
    · simp [status, trace, run_base_null L s hf hb, hf, hb]
    · simp [status, trace, run_both L s hf hb, hf, hb]

/-- C2: when the "fips" load succeeds and the "base" load returns a null result, the
status is 1, the standard output is exactly the line "Failed to load base provider", and
the log is: load "fips", the failed load "base", one unload of the fips handle, the
print, the exit.  So there is exactly one unload call, it is on the fips handle, and it
lies after the failed load and before the message and the end of the process. -/
theorem C2_base_missing {σ : Type} (L : Library σ) (s : σ)
    (hf : fipsResult L s ≠ NULL) (hb : baseResult L s = NULL) :
    status L s = 1 ∧
    output L s = "Failed to load base provider\n" ∧
    IsOneLine (output L s) ∧
    unloads (trace L s) = [fipsResult L s] ∧
    trace L s =
      [Event.load NULL "fips" (fipsResult L s), Event.load NULL "base" NULL,
        Event.unload (fipsResult L s), Event.print "Failed to load base provider\n",
        Event.exit 1] := by
  have hline : IsOneLine "Failed to load base provider\n" := by
    constructor <;> decide
  simp [status, output, trace, run_base_null L s hf hb, unloads, hline]

theorem C2_base_missing_witness :
    fipsResult (installedLibrary ["fips"]) 0 ≠ NULL ∧
    baseResult (installedLibrary ["fips"]) 0 = NULL ∧
    status (installedLibrary ["fips"]) 0 = 1 ∧
    output (installedLibrary ["fips"]) 0 = "Failed to load base provider\n" ∧
    unloads (trace (installedLibrary ["fips"]) 0) = [1] :=
  have h := C2_base_missing (installedLibrary ["fips"]) 0 (by decide) (by decide)
  ⟨by decide, by decide, h.1, h.2.1, h.2.2.2.1⟩

/-- C3: when the "fips" load returns a null result, the status is 1, the standard output
is exactly the line "Failed to load FIPS provider", the log has no unload call at all,
and the only load request is the one for "fips" (none for "base"). -/
theorem C3_fips_missing {σ : Type} (L : Library σ) (s : σ)
    (hf : fipsResult L s = NULL) :
    status L s = 1 ∧
    output L s = "Failed to load FIPS provider\n" ∧
    IsOneLine (output L s) ∧
    unloads (trace L s) = [] ∧
    (∀ prov, Event.unload prov ∉ trace L s) ∧
    loadNames (trace L s) = ["fips"] ∧
    (∀ ctx ret, Event.load ctx "base" ret ∉ trace L s) ∧
    trace L s =
      [Event.load NULL "fips" NULL, Event.print "Failed to load FIPS provider\n",
        Event.exit 1] := by
  have hline : IsOneLine "Failed to load FIPS provider\n" := by
    constructor <;> decide
  simp [status, output, trace, run_fips_null L s hf, unloads, loadNames, hline]

theorem C3_fips_missing_witness :
    fipsResult (installedLibrary ["base"]) 0 = NULL ∧
    status (installedLibrary ["base"]) 0 = 1 ∧
    output (installedLibrary ["base"]) 0 = "Failed to load FIPS provider\n" ∧
    unloads (trace (installedLibrary ["base"]) 0) = [] ∧
    loadNames (trace (installedLibrary ["base"]) 0) = ["fips"] :=
  have h := C3_fips_missing (installedLibrary ["base"]) 0 (by decide)
  ⟨by decide, h.1, h.2.1, h.2.2.2.1, h.2.2.2.2.2.1⟩

/-- C4: for every library and initial state, either the status is 0 and the standard
output is empty, or the status is 1 and the standard output is exactly one line ended by
a newline; that line is "Failed to load FIPS provider" (it names the FIPS provider) when
the "fips" load failed and "Failed to load base provider" (it names the base provider)
when the "base" load failed. -/
theorem C4_output {σ : Type} (L : Library σ) (s : σ) :
    (status L s = 0 → output L s = "") ∧
    (status L s = 1 → IsOneLine (output L s)) ∧
    (fipsResult L s = NULL →
      output L s = "Failed to load FIPS provider\n" ∧
        Mentions (output L s) "FIPS provider") ∧
    (fipsResult L s ≠ NULL → baseResult L s = NULL →
      output L s = "Failed to load base provider\n" ∧
        Mentions (output L s) "base provider") := by
  have hF : IsOneLine "Failed to load FIPS provider\n" := by
    constructor <;> decide
  have hB : IsOneLine "Failed to load base provider\n" := by
    constructor <;> decide
  have mF : Mentions "Failed to load FIPS provider\n" "FIPS provider" := by
    unfold Mentions; decide
  have mB : Mentions "Failed to load base provider\n" "base provider" := by
    unfold Mentions; decide
  by_cases hf : fipsResult L s = NULL
  · simp [status, output, run_fips_null L s hf, hf, hF, mF]
  · by_cases hb : baseResult L s = NULL
    · simp [status, output, run_base_null L s hf hb, hf, hb, hB, mB]
    · simp [status, output, run_both L s hf hb, hf, hb]

theorem C4_output_witness :
    (status (installedLibrary ["fips", "base"]) 0 = 0 ∧
      output (installedLibrary ["fips", "base"]) 0 = "") ∧
    (status (installedLibrary ["fips"]) 0 = 1 ∧
      IsOneLine (output (installedLibrary ["fips"]) 0)) ∧
    (fipsResult (installedLibrary []) 0 = NULL ∧
      output (installedLibrary []) 0 = "Failed to load FIPS provider\n" ∧
        Mentions (output (installedLibrary []) 0) "FIPS provider") ∧
    (fipsResult (installedLibrary ["fips"]) 0 ≠ NULL ∧
      baseResult (installedLibrary ["fips"]) 0 = NULL ∧
      output (installedLibrary ["fips"]) 0 = "Failed to load base provider\n" ∧
        Mentions (output (installedLibrary ["fips"]) 0) "base provider") :=
  ⟨⟨by decide, (C4_output (installedLibrary ["fips", "base"]) 0).1 (by decide)⟩,
    ⟨by decide, (C4_output (installedLibrary ["fips"]) 0).2.1 (by decide)⟩,
    ⟨by decide, (C4_output (installedLibrary []) 0).2.2.1 (by decide)⟩,
    ⟨by decide, by decide,
      (C4_output (installedLibrary ["fips"]) 0).2.2.2 (by decide) (by decide)⟩⟩

/-- C5: when both loads succeed, the library calls of the run are exactly: load "fips",
load "base", unload of the base handle, unload of the fips handle (release in reverse
order of acquisition), after which the process exits with status 0. -/
theorem C5_release_order {σ : Type} (L : Library σ) (s : σ)
    (hf : fipsResult L s ≠ NULL) (hb : baseResult L s ≠ NULL) :
    libraryCalls (trace L s) =
      [Event.load NULL "fips" (fipsResult L s), Event.load NULL "base" (baseResult L s),
        Event.unload (baseResult L s), Event.unload (fipsResult L s)] ∧
    unloads (trace L s) = [baseResult L s, fipsResult L s] ∧
    trace L s = libraryCalls (trace L s) ++ [Event.exit 0] ∧
    status L s = 0 := by
  simp [status, trace, run_both L s hf hb, unloads, libraryCalls]

theorem C5_release_order_witness :
    fipsResult (installedLibrary ["fips", "base"]) 0 ≠ NULL ∧
    baseResult (installedLibrary ["fips", "base"]) 0 ≠ NULL ∧
    libraryCalls (trace (installedLibrary ["fips", "base"]) 0) =
      [Event.load NULL "fips" 1, Event.load NULL "base" 2, Event.unload 2,
        Event.unload 1] ∧
    status (installedLibrary ["fips", "base"]) 0 = 0 :=
  have h := C5_release_order (installedLibrary ["fips", "base"]) 0 (by decide) (by decide)
  ⟨by decide, by decide, h.1, h.2.2.2⟩

/-- C6: for every library and initial state in which two successful loads return
different handles, every unload call of the log is given a non-null handle that a load
call at an earlier position of the same log returned, and no handle is passed to unload
twice. -/
theorem C6_release_only_acquired {σ : Type} (L : Library σ) (s : σ)
    (hd : fipsResult L s ≠ NULL → baseResult L s ≠ NULL →
      fipsResult L s ≠ baseResult L s) :
    (∀ (i : Nat) (prov : Ptr), (trace L s)[i]? = some (Event.unload prov) →
      prov ≠ NULL ∧
        ∃ (j : Nat) (ctx : Ptr) (name : String),
          j < i ∧ (trace L s)[j]? = some (Event.load ctx name prov)) ∧
    (unloads (trace L s)).Nodup := by
  by_cases hf : fipsResult L s = NULL
  · refine ⟨?_, ?_⟩
    · intro i prov hi
      simp only [trace, run_fips_null L s hf] at hi
      rcases i with _ | _ | _ | i <;> simp at hi
    · simp [trace, run_fips_null L s hf, unloads]
  · by_cases hb : baseResult L s = NULL
    · refine ⟨?_, ?_⟩
      · intro i prov hi
        simp only [trace, run_base_null L s hf hb] at hi ⊢
        rcases i with _ | _ | _ | _ | _ | i <;> simp at hi
        subst hi
        exact ⟨hf, 0, NULL, "fips", by omega, by simp⟩
      · simp [trace, run_base_null L s hf hb, unloads]
    · refine ⟨?_, ?_⟩
      · intro i prov hi
        simp only [trace, run_both L s hf hb] at hi ⊢
        rcases i with _ | _ | _ | _ | _ | i <;> simp at hi
        · subst hi
          exact ⟨hb, 1, NULL, "base", by omega, by simp⟩
        · subst hi
          exact ⟨hf, 0, NULL, "fips", by omega, by simp⟩
      · have hne := hd hf hb
        simp [trace, run_both L s hf hb, unloads, Ne.symm hne]

theorem C6_release_only_acquired_witness :
    (fipsResult (installedLibrary ["fips", "base"]) 0 ≠ NULL →
      baseResult (installedLibrary ["fips", "base"]) 0 ≠ NULL →
      fipsResult (installedLibrary ["fips", "base"]) 0 ≠
        baseResult (installedLibrary ["fips", "base"]) 0) ∧
    (unloads (trace (installedLibrary ["fips", "base"]) 0)).Nodup ∧
    unloads (trace (installedLibrary ["fips", "base"]) 0) = [2, 1] :=
  ⟨by decide,
    (C6_release_only_acquired (installedLibrary ["fips", "base"]) 0 (by decide)).2,
    by decide⟩

/-- Balance of acquisitions and releases: the log of a run ends with the exit call and,
before it, every handle has been passed to unload as many times as a load call returned
it as non-null.  The acquired and the released handles are listed for each path. -/
theorem unloads_balance_acquired {σ : Type} (L : Library σ) (s : σ) :
    ∃ pre, trace L s = pre ++ [Event.exit (status L s)] ∧
      (∀ h, (unloads pre).count h = (acquired pre).count h) ∧
      (∀ h, (acquired pre).count h = 1 → (unloads pre).count h = 1) ∧
      (∀ h, h ∈ acquired pre → h ∈ unloads pre) ∧
      (fipsResult L s ≠ NULL → baseResult L s ≠ NULL →
        acquired pre = [fipsResult L s, baseResult L s] ∧
          unloads pre = [baseResult L s, fipsResult L s]) ∧
      (fipsResult L s ≠ NULL → baseResult L s = NULL →
        acquired pre = [fipsResult L s] ∧ unloads pre = [fipsResult L s]) ∧
      (fipsResult L s = NULL → acquired pre = [] ∧ unloads pre = []) := by
  by_cases hf : fipsResult L s = NULL
  · refine ⟨[Event.load NULL "fips" NULL, Event.print "Failed to load FIPS provider\n"],
      ?_, ?_⟩
    · simp [status, trace, run_fips_null L s hf]
    · simp [acquired, unloads, hf]
  · by_cases hb : baseResult L s = NULL
    · refine ⟨[Event.load NULL "fips" (fipsResult L s), Event.load NULL "base" NULL,
        Event.unload (fipsResult L s), Event.print "Failed to load base provider\n"],
        ?_, ?_⟩
      · simp [status, trace, run_base_null L s hf hb]
      · simp [acquired, unloads, hf, hb]
    · refine ⟨[Event.load NULL "fips" (fipsResult L s),
        Event.load NULL "base" (baseResult L s),
        Event.unload (baseResult L s), Event.unload (fipsResult L s)], ?_, ?_⟩
      · simp [status, trace, run_both L s hf hb]
      · have hperm : ∀ h, List.count h [baseResult L s, fipsResult L s] =
            List.count h [fipsResult L s, baseResult L s] := by
          intro h
          simp only [List.count_cons, List.count_nil]
          omega
        have hmem : ∀ h, h ∈ [fipsResult L s, baseResult L s] →
            h ∈ [baseResult L s, fipsResult L s] := by
          intro h hh
          simp only [List.mem_cons, List.mem_singleton, List.not_mem_nil, or_false] at hh ⊢
          tauto
        have ha : acquired [Event.load NULL "fips" (fipsResult L s),
            Event.load NULL "base" (baseResult L s),
            Event.unload (baseResult L s), Event.unload (fipsResult L s)] =
            [fipsResult L s, baseResult L s] := by
          simp [acquired, hf, hb]
        have hu : unloads [Event.load NULL "fips" (fipsResult L s),
            Event.load NULL "base" (baseResult L s),
            Event.unload (baseResult L s), Event.unload (fipsResult L s)] =
            [baseResult L s, fipsResult L s] := by
          simp [unloads]
        rw [ha, hu]
        refine ⟨hperm, ?_, hmem, ?_, ?_, ?_⟩
        · intro h hh
          rw [hperm h]
          exact hh
        · intro _ _
          exact ⟨rfl, rfl⟩
        · intro _ hb2
          exact absurd hb2 hb
        · intro hf2
          exact absurd hf2 hf


/-- C7 (amended): for every library and initial state in which two successful loads
return different handles, the log of the run ends with the exit call and, in the part of
the log before it, every handle that a load call returned as non-null has been passed to
unload exactly once: on the success path the base handle and then the fips handle are
released, on the partial-failure path (fips loaded, base failed) the fips handle is
released, and no acquired handle is left unreleased. -/
theorem C7_released_exactly_once {σ : Type} (L : Library σ) (s : σ)
    (hd : fipsResult L s ≠ NULL → baseResult L s ≠ NULL →
      fipsResult L s ≠ baseResult L s) :
    ∃ pre, trace L s = pre ++ [Event.exit (status L s)] ∧
      (∀ h, h ∈ acquired pre → (unloads pre).count h = 1) ∧
      (∀ h, h ∈ acquired pre → h ∈ unloads pre) ∧
      (fipsResult L s ≠ NULL → baseResult L s ≠ NULL →
        acquired pre = [fipsResult L s, baseResult L s] ∧
          unloads pre = [baseResult L s, fipsResult L s]) ∧
      (fipsResult L s ≠ NULL → baseResult L s = NULL →
        acquired pre = [fipsResult L s] ∧ unloads pre = [fipsResult L s]) ∧
      (fipsResult L s = NULL → acquired pre = [] ∧ unloads pre = []) := by
  obtain ⟨pre, hpre, _, _, hmem, hboth, hpart, hnone⟩ := unloads_balance_acquired L s
  refine ⟨pre, hpre, ?_, hmem, hboth, hpart, hnone⟩
  intro h hh
  by_cases hf : fipsResult L s = NULL
  · rw [(hnone hf).1] at hh
    simp at hh
  · by_cases hb : baseResult L s = NULL
    · rw [(hpart hf hb).1] at hh
      rw [(hpart hf hb).2]
      simp only [List.mem_singleton] at hh
      subst hh
      simp
    · have hne := hd hf hb
      rw [(hboth hf hb).1] at hh
      rw [(hboth hf hb).2]
      simp only [List.mem_cons, List.mem_singleton, List.not_mem_nil, or_false] at hh
      rcases hh with hh | hh
      · subst hh
        simp [hne]
      · subst hh
        simp [Ne.symm hne]

theorem C7_released_exactly_once_witness :
    (fipsResult (installedLibrary ["fips", "base"]) 0 ≠ NULL →
      baseResult (installedLibrary ["fips", "base"]) 0 ≠ NULL →
      fipsResult (installedLibrary ["fips", "base"]) 0 ≠
        baseResult (installedLibrary ["fips", "base"]) 0) ∧
    ∃ pre, trace (installedLibrary ["fips", "base"]) 0 = pre ++ [Event.exit 0] ∧
      (∀ h, h ∈ acquired pre → (unloads pre).count h = 1) ∧
      acquired pre = [1, 2] ∧ unloads pre = [2, 1] :=
  ⟨by decide,
    match C7_released_exactly_once (installedLibrary ["fips", "base"]) 0 (by decide) with
    | ⟨pre, h1, h2, _, h4, _, _⟩ => ⟨pre, h1, h2, h4 (by decide) (by decide)⟩⟩

/-- C7 as stated fails: against a library that answers both load requests with the same
pointer 7, the run is load "fips" (7), load "base" (7), unload 7, unload 7, exit 0, so
the acquired handle 7 has been passed to unload twice, not once, when exit is called. -/
theorem C7_counterexample :
    trace (constantLibrary 7) () =
      [Event.load NULL "fips" 7, Event.load NULL "base" 7, Event.unload 7,
        Event.unload 7, Event.exit 0] ∧
    ¬ (∀ pre, trace (constantLibrary 7) () =
          pre ++ [Event.exit (status (constantLibrary 7) ())] →
        ∀ h, h ∈ acquired pre → (unloads pre).count h = 1) := by
  refine ⟨by decide, ?_⟩
  intro hall
  have h := hall [Event.load NULL "fips" 7, Event.load NULL "base" 7, Event.unload 7,
    Event.unload 7] (by decide) 7 (by decide)
  revert h
  decide

/-- C8: for every library and initial state, the first library call of the run is the
load of "fips"; the names requested are "fips" alone when that load fails and "fips"
then "base" when it succeeds, so "fips" is requested exactly once, "base" at most once
and only at a later position than a successful "fips" load, no other name is requested
and no name twice; there are at most two load calls and at most four library calls. -/
theorem C8_load_requests {σ : Type} (L : Library σ) (s : σ) :
    (trace L s).head? = some (Event.load NULL "fips" (fipsResult L s)) ∧
    (libraryCalls (trace L s)).head? = some (Event.load NULL "fips" (fipsResult L s)) ∧
    loadNames (trace L s) = (if fipsResult L s = NULL then ["fips"] else ["fips", "base"]) ∧
    (loadNames (trace L s)).count "fips" = 1 ∧
    (loadNames (trace L s)).count "base" ≤ 1 ∧
    (loadNames (trace L s)).Nodup ∧
    (∀ name, name ∈ loadNames (trace L s) → name = "fips" ∨ name = "base") ∧
    (∀ (i : Nat) (ctx ret : Ptr), (trace L s)[i]? = some (Event.load ctx "base" ret) →
      fipsResult L s ≠ NULL ∧ 0 < i ∧
        (trace L s)[0]? = some (Event.load NULL "fips" (fipsResult L s))) ∧
    (loadNames (trace L s)).length ≤ 2 ∧
    (libraryCalls (trace L s)).length ≤ 4 := by
  by_cases hf : fipsResult L s = NULL
  · simp only [trace, run_fips_null L s hf]
    refine ⟨by simp [hf], by simp [libraryCalls, hf], by simp [loadNames, hf],
      by simp [loadNames], by simp [loadNames], by simp [loadNames],
      by simp [loadNames], ?_, by simp [loadNames], by simp [libraryCalls]⟩
    intro i ctx ret hi
    rcases i with _ | _ | _ | i <;> simp at hi
  · by_cases hb : baseResult L s = NULL
    · simp only [trace, run_base_null L s hf hb]
      refine ⟨by simp, by simp [libraryCalls], by simp [loadNames, hf],
        by simp [loadNames], by simp [loadNames], by simp [loadNames],
        by simp [loadNames], ?_, by simp [loadNames], by simp [libraryCalls]⟩
      intro i ctx ret hi
      rcases i with _ | _ | _ | _ | _ | i <;> simp at hi
      exact ⟨hf, by omega, by simp⟩
    · simp only [trace, run_both L s hf hb]
      refine ⟨by simp, by simp [libraryCalls], by simp [loadNames, hf],
        by simp [loadNames], by simp [loadNames], by simp [loadNames],
        by simp [loadNames], ?_, by simp [loadNames], by simp [libraryCalls]⟩
      intro i ctx ret hi
      rcases i with _ | _ | _ | _ | _ | i <;> simp at hi
      exact ⟨hf, by omega, by simp⟩

theorem C8_load_requests_witness :
    (trace (installedLibrary ["fips"]) 0)[1]? = some (Event.load NULL "base" NULL) ∧
    (fipsResult (installedLibrary ["fips"]) 0 ≠ NULL ∧ 0 < 1 ∧
      (trace (installedLibrary ["fips"]) 0)[0]? = some (Event.load NULL "fips" 1)) ∧
    ("base" = "fips" ∨ "base" = "base") :=
  have h := C8_load_requests (installedLibrary ["fips"]) 0
  ⟨by decide, h.2.2.2.2.2.2.2.1 1 NULL NULL (by decide),
    h.2.2.2.2.2.2.1 "base" (by decide)⟩

/-- C9: take two runs, against any two libraries in any two states, such that the "fips"
load fails in one exactly when it fails in the other and, when it succeeds, the "base"
load fails in one exactly when it fails in the other (whatever made the library fail is
part of its hidden state).  Then the two runs have the same standard output and the same
exit status, and their unload calls are the same sequence of local variables, each run
passing its own values of these variables. -/
theorem C9_failure_cause_hidden {σ τ : Type} (L1 : Library σ) (s1 : σ)
    (L2 : Library τ) (s2 : τ)
    (hf : fipsResult L1 s1 = NULL ↔ fipsResult L2 s2 = NULL)
    (hb : fipsResult L1 s1 ≠ NULL →
      (baseResult L1 s1 = NULL ↔ baseResult L2 s2 = NULL)) :
    output L1 s1 = output L2 s2 ∧
    status L1 s1 = status L2 s2 ∧
    ∃ slots : List Slot,
      unloads (trace L1 s1) =
        slots.map (Slot.value (fipsResult L1 s1) (baseResult L1 s1)) ∧
      unloads (trace L2 s2) =
        slots.map (Slot.value (fipsResult L2 s2) (baseResult L2 s2)) := by
  by_cases h1 : fipsResult L1 s1 = NULL
  · have h2 : fipsResult L2 s2 = NULL := hf.mp h1
    refine ⟨?_, ?_, [], ?_, ?_⟩ <;>
      simp [output, status, trace, unloads, run_fips_null L1 s1 h1,
        run_fips_null L2 s2 h2]
  · have h2 : fipsResult L2 s2 ≠ NULL := fun h => h1 (hf.mpr h)
    by_cases b1 : baseResult L1 s1 = NULL
    · have b2 : baseResult L2 s2 = NULL := (hb h1).mp b1
      refine ⟨?_, ?_, [Slot.fips], ?_, ?_⟩ <;>
        simp [output, status, trace, unloads, Slot.value, run_base_null L1 s1 h1 b1,
          run_base_null L2 s2 h2 b2]
    · have b2 : baseResult L2 s2 ≠ NULL := fun h => b1 ((hb h1).mpr h)
      refine ⟨?_, ?_, [Slot.base, Slot.fips], ?_, ?_⟩ <;>
        simp [output, status, trace, unloads, Slot.value, run_both L1 s1 h1 b1,
          run_both L2 s2 h2 b2]

theorem C9_failure_cause_hidden_witness :
    (run (failingLibrary [("base", Cause.notFound)]) (0, none)).2.lib =
      (1, some Cause.notFound) ∧
    (run (failingLibrary [("base", Cause.initFailed)]) (0, none)).2.lib =
      (1, some Cause.initFailed) ∧
    output (failingLibrary [("base", Cause.notFound)]) (0, none) =
      output (failingLibrary [("base", Cause.initFailed)]) (0, none) ∧
    status (failingLibrary [("base", Cause.notFound)]) (0, none) =
      status (failingLibrary [("base", Cause.initFailed)]) (0, none) :=
  have h := C9_failure_cause_hidden
    (failingLibrary [("base", Cause.notFound)]) (0, none)
    (failingLibrary [("base", Cause.initFailed)]) (0, none)
    (by decide) (fun _ => by decide)
  ⟨by decide, by decide, h.1, h.2.1⟩

end VerifyLoadFipsModules
